import Mathlib

/-!
Verification of the task-execution coordinator ("executor") and the S3
prefix sensor of this repository.

The coordinator implementation (`airflow/executors/base_executor.py`) is not
part of the shipped sources; only its tests are.  Its data model and
operations are therefore modelled from the specification (sections 2-4 of
the design document), and checked against the concrete scenarios the tests
pin down.  The S3 prefix sensor (`airflow/providers/amazon/aws/sensors/
s3_prefix.py`) is shipped and is embedded directly from its source.
-/

/-- Immutable composite identifier of one task attempt:
`{workflow id (dag_id), task id, run timestamp, attempt number}`.
Mirrors `TaskInstanceKey` as used by the tests; the run timestamp is
abstracted to a natural number since only value equality matters. -/
structure TaskInstanceKey where
  dag_id : String
  task_id : String
  execution_date : Nat
  try_number : Nat
deriving DecidableEq, Repr

/-- Terminal state of a finished attempt (`State.SUCCESS` / `State.FAILED`). -/
inductive TaskState
  | success
  | failed
deriving DecidableEq, Repr

/-- An Event Buffer value: `(terminal state, optional auxiliary info)`. -/
abbrev EventValue : Type := TaskState × Option String

/-- The Event Buffer: mapping from key to `(state, info)`, represented as an
association list with unique keys, in insertion order (a Python dict). -/
abbrev EventBuffer : Type := List (TaskInstanceKey × EventValue)

/-- Modelled from the spec: Event Buffer `record(key, state, info)`
("`record` overwrites any existing unread entry for the same key").  An
existing entry is overwritten in place, a fresh key is appended at the end,
exactly as assignment into a Python dict behaves. -/
def record (buf : EventBuffer) (key : TaskInstanceKey) (v : EventValue) : EventBuffer :=
  match buf with
  | [] => [(key, v)]
  | (k, w) :: rest =>
    if k = key then (key, v) :: rest else (k, w) :: record rest key v

/-- A sequence of `record` calls applied in order to a buffer. -/
def recordAll (buf : EventBuffer) (ops : List (TaskInstanceKey × EventValue)) : EventBuffer :=
  ops.foldl (fun b p => record b p.1 p.2) buf

/-- Modelled from the spec: `drain(filterByWorkflowIds = none)`
(`BaseExecutor.get_event_buffer(dag_ids=None)` in the tests).  Returns the
pair `(collected entries, entries remaining in the buffer)`: with no filter
every entry is removed and returned; with a filter set exactly the entries
whose key's workflow id lies in the set are removed and returned, the rest
remain. -/
def get_event_buffer (buf : EventBuffer) (dag_ids : Option (List String)) :
    EventBuffer × EventBuffer :=
  match dag_ids with
  | none => (buf, [])
  | some ids =>
    (buf.filter (fun p => decide (p.1.dag_id ∈ ids)),
     buf.filter (fun p => decide (p.1.dag_id ∉ ids)))

/-- The last `(state, info)` recorded for key `k` in the sequence `ops` of
record calls, if any. -/
def lastRecorded (ops : List (TaskInstanceKey × EventValue)) (k : TaskInstanceKey) :
    Option EventValue :=
  match ops with
  | [] => none
  | (k₀, v) :: rest =>
    match lastRecorded rest k with
    | some w => some w
    | none => if k₀ = k then some v else none

theorem lookup_cons_self (k : TaskInstanceKey) (w : EventValue) (rest : EventBuffer) :
    (((k, w) :: rest : EventBuffer).lookup k) = some w := by
  simp [List.lookup]

theorem lookup_cons_of_ne {k k₀ : TaskInstanceKey} (w : EventValue) (rest : EventBuffer)
    (h : k ≠ k₀) : (((k₀, w) :: rest : EventBuffer).lookup k) = rest.lookup k := by
  simp [List.lookup, beq_eq_false_iff_ne.mpr h]

theorem lookup_record_self (buf : EventBuffer) (k : TaskInstanceKey) (v : EventValue) :
    (record buf k v).lookup k = some v := by
  induction buf with
  | nil => exact lookup_cons_self k v []
  | cons p rest ih =>
    obtain ⟨k₀, w⟩ := p
    by_cases h : k₀ = k
    · subst h
      rw [record, if_pos rfl]
      exact lookup_cons_self k₀ v rest
    · show ((record ((k₀, w) :: rest) k v).lookup k) = some v
      rw [record, if_neg h, lookup_cons_of_ne w _ (Ne.symm h)]
      exact ih

theorem lookup_record_ne (buf : EventBuffer) (k k₁ : TaskInstanceKey) (v : EventValue)
    (h : k₁ ≠ k) : (record buf k v).lookup k₁ = buf.lookup k₁ := by
  induction buf with
  | nil =>
    show (((k, v) :: [] : EventBuffer).lookup k₁) = List.lookup k₁ []
    rw [lookup_cons_of_ne v [] h]
  | cons p rest ih =>
    obtain ⟨k₀, w⟩ := p
    by_cases h₀ : k₀ = k
    · subst h₀
      rw [record, if_pos rfl, lookup_cons_of_ne v rest h, lookup_cons_of_ne w rest h]
    · show ((record ((k₀, w) :: rest) k v).lookup k₁) = _
      rw [record, if_neg h₀]
      by_cases h₁ : k₁ = k₀
      · subst h₁
        rw [lookup_cons_self, lookup_cons_self]
      · rw [lookup_cons_of_ne w _ h₁, lookup_cons_of_ne w rest h₁]
        exact ih

theorem keys_record (buf : EventBuffer) (k : TaskInstanceKey) (v : EventValue) :
    (record buf k v).map Prod.fst =
      if k ∈ buf.map Prod.fst then buf.map Prod.fst else buf.map Prod.fst ++ [k] := by
  induction buf with
  | nil => simp [record]
  | cons p rest ih =>
    obtain ⟨k₀, w⟩ := p
    by_cases h : k₀ = k
    · subst h
      simp [record]
    · rw [record, if_neg h]
      simp only [List.map_cons, ih, List.mem_cons]
      by_cases hmem : k ∈ rest.map Prod.fst
      · simp [hmem, Ne.symm h]
      · simp [hmem, Ne.symm h]

theorem mem_keys_record (buf : EventBuffer) (k k₁ : TaskInstanceKey) (v : EventValue) :
    k₁ ∈ (record buf k v).map Prod.fst ↔ k₁ = k ∨ k₁ ∈ buf.map Prod.fst := by
  rw [keys_record]
  by_cases hmem : k ∈ buf.map Prod.fst
  · rw [if_pos hmem]
    constructor
    · exact Or.inr
    · rintro (rfl | h)
      · exact hmem
      · exact h
  · rw [if_neg hmem, List.mem_append, List.mem_singleton]
    exact Or.comm

theorem nodup_keys_record (buf : EventBuffer) (k : TaskInstanceKey) (v : EventValue)
    (h : (buf.map Prod.fst).Nodup) : ((record buf k v).map Prod.fst).Nodup := by
  rw [keys_record]
  by_cases hmem : k ∈ buf.map Prod.fst
  · rwa [if_pos hmem]
  · rw [if_neg hmem]
    rw [List.nodup_append]
    refine ⟨h, List.nodup_singleton k, ?_⟩
    intro x hx hk
    simp at hk
    subst hk
    exact hmem hx

theorem lookup_recordAll (ops : List (TaskInstanceKey × EventValue)) (buf : EventBuffer)
    (k : TaskInstanceKey) :
    (recordAll buf ops).lookup k =
      match lastRecorded ops k with
      | some v => some v
      | none => buf.lookup k := by
  induction ops generalizing buf with
  | nil => simp [recordAll, lastRecorded]
  | cons p rest ih =>
    obtain ⟨k₀, v⟩ := p
    show (recordAll (record buf k₀ v) rest).lookup k = _
    rw [ih]
    simp only [lastRecorded]
    cases lastRecorded rest k with
    | some w => rfl
    | none =>
      by_cases h : k₀ = k
      · subst h
        simp [lookup_record_self]
      · simp [h, lookup_record_ne buf k₀ k v (Ne.symm h)]

theorem mem_keys_recordAll (ops : List (TaskInstanceKey × EventValue)) (buf : EventBuffer)
    (k : TaskInstanceKey) :
    k ∈ (recordAll buf ops).map Prod.fst ↔
      k ∈ ops.map Prod.fst ∨ k ∈ buf.map Prod.fst := by
  induction ops generalizing buf with
  | nil => simp [recordAll]
  | cons p rest ih =>
    obtain ⟨k₀, v⟩ := p
    show k ∈ (recordAll (record buf k₀ v) rest).map Prod.fst ↔ _
    rw [ih, mem_keys_record, List.map_cons, List.mem_cons]
    tauto

theorem nodup_keys_recordAll (ops : List (TaskInstanceKey × EventValue)) (buf : EventBuffer)
    (h : (buf.map Prod.fst).Nodup) : ((recordAll buf ops).map Prod.fst).Nodup := by
  induction ops generalizing buf with
  | nil => exact h
  | cons p rest ih =>
    exact ih (record buf p.1 p.2) (nodup_keys_record buf p.1 p.2 h)

/-- Claim C1: after any sequence of `record` calls (on an initially empty
buffer) followed by an unfiltered `drain`, the buffer is empty, and the
returned mapping has exactly one entry per recorded key, whose value is the
last `(state, info)` recorded for that key. -/
theorem event_buffer_drain_unfiltered (ops : List (TaskInstanceKey × EventValue)) :
    (get_event_buffer (recordAll [] ops) none).2 = [] ∧
    ((get_event_buffer (recordAll [] ops) none).1.map Prod.fst).Nodup ∧
    (∀ k, k ∈ (get_event_buffer (recordAll [] ops) none).1.map Prod.fst ↔
      k ∈ ops.map Prod.fst) ∧
    (∀ k, (get_event_buffer (recordAll [] ops) none).1.lookup k = lastRecorded ops k) := by
  refine ⟨rfl, ?_, ?_, ?_⟩
  · exact nodup_keys_recordAll ops [] (by simp)
  · intro k
    show k ∈ (recordAll [] ops).map Prod.fst ↔ _
    rw [mem_keys_recordAll]
    simp
  · intro k
    show (recordAll [] ops).lookup k = _
    rw [lookup_recordAll]
    cases lastRecorded ops k with
    | some v => rfl
    | none => simp [List.lookup]

/-- Claim C2: a filtered drain removes and returns exactly the entries whose
key's workflow id lies in the (non-empty) filter set; every other entry is
untouched and is returned by a subsequent unfiltered drain. -/
theorem event_buffer_drain_filtered (buf : EventBuffer) (ids : List String)
    (_hids : ids ≠ []) :
    (∀ p : TaskInstanceKey × EventValue,
      p ∈ (get_event_buffer buf (some ids)).1 ↔ p ∈ buf ∧ p.1.dag_id ∈ ids) ∧
    (∀ p : TaskInstanceKey × EventValue,
      p ∈ (get_event_buffer buf (some ids)).2 ↔ p ∈ buf ∧ p.1.dag_id ∉ ids) ∧
    (get_event_buffer ((get_event_buffer buf (some ids)).2) none).1 =
      (get_event_buffer buf (some ids)).2 ∧
    (get_event_buffer ((get_event_buffer buf (some ids)).2) none).2 = [] := by
  refine ⟨?_, ?_, rfl, rfl⟩ <;> intro p <;>
    simp [get_event_buffer, List.mem_filter]

/-- The concrete buffer of the spec scenario and of `test_get_event_buffer`:
three successful keys, one in workflow "my_dag1" and two in "my_dag2". -/
def demoBuffer : EventBuffer :=
  [(⟨"my_dag1", "my_task1", 0, 1⟩, (TaskState.success, none)),
   (⟨"my_dag2", "my_task1", 0, 1⟩, (TaskState.success, none)),
   (⟨"my_dag2", "my_task2", 0, 1⟩, (TaskState.success, none))]

theorem event_buffer_drain_filtered_witness :
    ((∀ p : TaskInstanceKey × EventValue,
      p ∈ (get_event_buffer demoBuffer (some ["my_dag1"])).1 ↔
        p ∈ demoBuffer ∧ p.1.dag_id ∈ ["my_dag1"]) ∧
    (∀ p : TaskInstanceKey × EventValue,
      p ∈ (get_event_buffer demoBuffer (some ["my_dag1"])).2 ↔
        p ∈ demoBuffer ∧ p.1.dag_id ∉ ["my_dag1"]) ∧
    (get_event_buffer ((get_event_buffer demoBuffer (some ["my_dag1"])).2) none).1 =
      (get_event_buffer demoBuffer (some ["my_dag1"])).2 ∧
    (get_event_buffer ((get_event_buffer demoBuffer (some ["my_dag1"])).2) none).2 = []) ∧
    (get_event_buffer demoBuffer (some ["my_dag1"])).1.length = 1 ∧
    (get_event_buffer ((get_event_buffer demoBuffer (some ["my_dag1"])).2) none).1.length = 2 ∧
    (get_event_buffer ([] : EventBuffer) none).1.length = 0 :=
  ⟨event_buffer_drain_filtered demoBuffer ["my_dag1"] (List.cons_ne_nil _ _),
   by decide, by decide, by decide⟩

/-- A unit of work to dispatch: key, priority, target queue name, opaque
execution command (spec section 3, "Task Instance"). -/
structure TaskInstance where
  key : TaskInstanceKey
  priority : Nat
  queue : String
  command : String
deriving DecidableEq, Repr

/-- Modelled from the spec: the default Adoption policy of
`BaseExecutor.try_adopt_task_instances` ("adopt nothing — return the full
input sequence unchanged, instructing the caller to reschedule every one of
them from scratch"). -/
def try_adopt_task_instances (tis : List TaskInstance) : List TaskInstance := tis

/-- Claim C3: the default `tryAdopt` is the identity on its input sequence:
equal membership and count (no duplication, no omission), including on the
empty input. -/
theorem try_adopt_default_identity (tis : List TaskInstance) :
    try_adopt_task_instances tis = tis ∧
    (∀ ti, (try_adopt_task_instances tis).count ti = tis.count ti) ∧
    (∀ ti, ti ∈ try_adopt_task_instances tis ↔ ti ∈ tis) ∧
    try_adopt_task_instances [] = [] := by
  exact ⟨rfl, fun _ => rfl, fun _ => Iff.rfl, rfl⟩

/-- Modelled from the spec: coordinator state (spec sections 2-4) —
configured concurrency ceiling (`parallelism`), ready-but-undispatched
attempts (`queued_tasks`), dispatched-and-unconfirmed attempts (`running`),
and the Event Buffer of uncollected terminal outcomes. -/
structure ExecutorState where
  parallelism : Nat
  queued_tasks : List TaskInstance
  running : List TaskInstanceKey
  event_buffer : EventBuffer
deriving DecidableEq, Repr

/-- Modelled from the spec: "available slots = capacity − count of attempts
currently dispatched and not yet confirmed terminal". -/
def open_slots (s : ExecutorState) : Nat := s.parallelism - s.running.length

/-- Count of dispatched-and-unconfirmed attempts. -/
def running_count (s : ExecutorState) : Nat := s.running.length

/-- Modelled from the spec: `enqueue(taskInstance)` appends a ready attempt
to the Task Queue. -/
def enqueue (s : ExecutorState) (ti : TaskInstance) : ExecutorState :=
  { s with queued_tasks := s.queued_tasks ++ [ti] }

/-- Stable insertion keeping higher priorities first; an element is placed
before the first entry of equal or lower priority, so ties keep FIFO order. -/
def insertByPriority (ti : TaskInstance) : List TaskInstance → List TaskInstance
  | [] => [ti]
  | x :: xs =>
    if x.priority ≤ ti.priority then ti :: x :: xs else x :: insertByPriority ti xs

/-- Stable sort of the Task Queue, highest priority first (spec 4.2:
"highest priority first, ties broken by insertion order"). -/
def sortByPriority : List TaskInstance → List TaskInstance
  | [] => []
  | x :: xs => insertByPriority x (sortByPriority xs)

/-- Modelled from the spec: `dispatchReady(maxCount)` "pulls at most
`maxCount` entries" from the Task Queue in priority order; returns the
dispatched attempts and the queue that remains. -/
def dispatchReady (q : List TaskInstance) (maxCount : Nat) :
    List TaskInstance × List TaskInstance :=
  ((sortByPriority q).take maxCount, (sortByPriority q).drop maxCount)

/-- Modelled from the spec: applying one backend-reported terminal outcome
during synchronize — "for each, call Event Buffer `record` and Slot
Accounting `release`" — incrementally, one attempt at a time (spec 5). -/
def applyOutcome (s : ExecutorState) (ko : TaskInstanceKey × EventValue) : ExecutorState :=
  { s with
    running := s.running.filter (fun k => decide (k ≠ ko.1)),
    event_buffer := record s.event_buffer ko.1 ko.2 }

/-- Modelled from the spec: the synchronize step of one heartbeat tick,
folding every completed attempt reported by the backend into the state. -/
def syncOutcomes (s : ExecutorState) (completed : List (TaskInstanceKey × EventValue)) :
    ExecutorState :=
  completed.foldl applyOutcome s

/-- Modelled from the spec: the dispatch step — `dispatchReady(openSlots)`
then one `acquire` per dispatched attempt (its key joins `running`). -/
def trigger_tasks (s : ExecutorState) (maxCount : Nat) :
    ExecutorState × List TaskInstance :=
  ((fun dr =>
    { s with queued_tasks := dr.2, running := s.running ++ dr.1.map TaskInstance.key })
    (dispatchReady s.queued_tasks maxCount),
   (dispatchReady s.queued_tasks maxCount).1)

/-- Observable events of one heartbeat tick, in execution order. -/
inductive HeartbeatEvent
  | sync
  | dispatch (count : Nat)
  | gauge (metric : String) (value : Nat)
deriving DecidableEq, Repr

/-- Modelled from the spec: `heartbeat()` — the fixed three-step tick:
1. synchronize, 2. dispatch up to `availableSlots()`, 3. report the three
gauges.  Returns the next state together with the ordered event trace. -/
def heartbeat (s : ExecutorState) (completed : List (TaskInstanceKey × EventValue)) :
    ExecutorState × List HeartbeatEvent :=
  let s₁ := syncOutcomes s completed
  let s₂ := (trigger_tasks s₁ (open_slots s₁)).1
  (s₂,
   [HeartbeatEvent.sync,
    HeartbeatEvent.dispatch (trigger_tasks s₁ (open_slots s₁)).2.length,
    HeartbeatEvent.gauge "executor.open_slots" (open_slots s₂),
    HeartbeatEvent.gauge "executor.queued_tasks" s₂.queued_tasks.length,
    HeartbeatEvent.gauge "executor.running_tasks" s₂.running.length])

def isSync : HeartbeatEvent → Bool
  | .sync => true
  | _ => false

def isDispatch : HeartbeatEvent → Bool
  | .dispatch _ => true
  | _ => false

def isGauge : HeartbeatEvent → Bool
  | .gauge _ _ => true
  | _ => false

def isGaugeNamed (n : String) : HeartbeatEvent → Bool
  | .gauge m _ => m == n
  | _ => false

/-- Number of gauge emissions for metric `n` in a heartbeat trace. -/
def gaugeCount (t : List HeartbeatEvent) (n : String) : Nat :=
  (t.filter (isGaugeNamed n)).length

/-- Claim C4: every `heartbeat()` performs synchronize before dispatch in
the same tick (the first sync event precedes the first dispatch event in
the trace, and both occur), and emits exactly one gauge per metric name —
three gauge calls in total. -/
theorem heartbeat_sync_before_dispatch_and_gauges (s : ExecutorState)
    (completed : List (TaskInstanceKey × EventValue)) :
    HeartbeatEvent.sync ∈ (heartbeat s completed).2 ∧
    (∃ n, HeartbeatEvent.dispatch n ∈ (heartbeat s completed).2) ∧
    (heartbeat s completed).2.findIdx isSync <
      (heartbeat s completed).2.findIdx isDispatch ∧
    gaugeCount (heartbeat s completed).2 "executor.open_slots" = 1 ∧
    gaugeCount (heartbeat s completed).2 "executor.queued_tasks" = 1 ∧
    gaugeCount (heartbeat s completed).2 "executor.running_tasks" = 1 ∧
    ((heartbeat s completed).2.filter isGauge).length = 3 := by
  refine ⟨?_, ?_, ?_, ?_, ?_, ?_, ?_⟩ <;>
    simp [heartbeat, gaugeCount, isSync, isDispatch, isGauge, isGaugeNamed,
      List.findIdx_cons, List.filter]

/-- Modelled from the spec: the state effect of `drain` — collected entries
leave the buffer, the rest of the coordinator state is untouched. -/
def drainState (s : ExecutorState) (dag_ids : Option (List String)) : ExecutorState :=
  { s with event_buffer := (get_event_buffer s.event_buffer dag_ids).2 }

/-- Modelled from the spec: the state effect of the default `tryAdopt` —
nothing is adopted, every candidate is handed back, the coordinator state
is unchanged. -/
def adoptState (s : ExecutorState) (_candidates : List TaskInstance) : ExecutorState :=
  s

/-- Coordinator states reachable from a fresh coordinator through the
external interface: `enqueue`, `heartbeat`, `drain` and `tryAdopt`. -/
inductive Reachable : ExecutorState → Prop
  | init (p : Nat) :
      Reachable { parallelism := p, queued_tasks := [], running := [], event_buffer := [] }
  | enqueue_step {s : ExecutorState} (ti : TaskInstance) :
      Reachable s → Reachable (enqueue s ti)
  | heartbeat_step {s : ExecutorState} (completed : List (TaskInstanceKey × EventValue)) :
      Reachable s → Reachable (heartbeat s completed).1
  | drain_step {s : ExecutorState} (dag_ids : Option (List String)) :
      Reachable s → Reachable (drainState s dag_ids)
  | adopt_step {s : ExecutorState} (candidates : List TaskInstance) :
      Reachable s → Reachable (adoptState s candidates)

theorem applyOutcome_parallelism (s : ExecutorState) (ko : TaskInstanceKey × EventValue) :
    (applyOutcome s ko).parallelism = s.parallelism := rfl

theorem applyOutcome_running_le (s : ExecutorState) (ko : TaskInstanceKey × EventValue) :
    (applyOutcome s ko).running.length ≤ s.running.length :=
  List.length_filter_le _ _

theorem syncOutcomes_parallelism (completed : List (TaskInstanceKey × EventValue))
    (s : ExecutorState) : (syncOutcomes s completed).parallelism = s.parallelism := by
  induction completed generalizing s with
  | nil => rfl
  | cons ko rest ih =>
    show (syncOutcomes (applyOutcome s ko) rest).parallelism = _
    rw [ih, applyOutcome_parallelism]

theorem syncOutcomes_running_le (completed : List (TaskInstanceKey × EventValue))
    (s : ExecutorState) :
    (syncOutcomes s completed).running.length ≤ s.running.length := by
  induction completed generalizing s with
  | nil => exact Nat.le_refl _
  | cons ko rest ih =>
    exact Nat.le_trans (ih (applyOutcome s ko)) (applyOutcome_running_le s ko)

theorem trigger_tasks_parallelism (s : ExecutorState) (m : Nat) :
    (trigger_tasks s m).1.parallelism = s.parallelism := rfl

theorem trigger_tasks_running_length (s : ExecutorState) (m : Nat) :
    (trigger_tasks s m).1.running.length ≤ s.running.length + m := by
  show (s.running ++ ((sortByPriority s.queued_tasks).take m).map TaskInstance.key).length ≤ _
  rw [List.length_append, List.length_map]
  exact Nat.add_le_add_left (List.length_take_le m _) s.running.length

theorem heartbeat_running_bound (s : ExecutorState)
    (completed : List (TaskInstanceKey × EventValue))
    (h : s.running.length ≤ s.parallelism) :
    (heartbeat s completed).1.running.length ≤ (heartbeat s completed).1.parallelism := by
  show (trigger_tasks (syncOutcomes s completed) (open_slots (syncOutcomes s completed))).1.running.length ≤
    (trigger_tasks (syncOutcomes s completed) (open_slots (syncOutcomes s completed))).1.parallelism
  rw [trigger_tasks_parallelism, syncOutcomes_parallelism]
  have h₁ := syncOutcomes_running_le completed s
  have h₂ := trigger_tasks_running_length (syncOutcomes s completed)
    (open_slots (syncOutcomes s completed))
  have h₃ : open_slots (syncOutcomes s completed) =
      s.parallelism - (syncOutcomes s completed).running.length := by
    unfold open_slots
    rw [syncOutcomes_parallelism]
  omega

/-- Claim C5: in every reachable coordinator state,
`availableSlots() + dispatchedCount() = configuredCapacity` (equivalently,
dispatched-and-unconfirmed attempts never exceed the capacity), and this is
preserved by `enqueue`, `heartbeat`, `drain` and `tryAdopt`. -/
theorem slot_accounting_invariant (s : ExecutorState) (h : Reachable s) :
    running_count s ≤ s.parallelism ∧
    open_slots s + running_count s = s.parallelism := by
  have hb : s.running.length ≤ s.parallelism := by
    induction h with
    | init p => exact Nat.zero_le p
    | enqueue_step ti _ ih => exact ih
    | heartbeat_step completed h ih => exact heartbeat_running_bound _ completed ih
    | drain_step dag_ids _ ih => exact ih
    | adopt_step candidates _ ih => exact ih
  refine ⟨hb, ?_⟩
  unfold open_slots running_count
  omega

theorem slot_accounting_invariant_witness :
    running_count (heartbeat (enqueue
        { parallelism := 2, queued_tasks := [], running := [], event_buffer := [] }
        { key := ⟨"wf1", "t1", 0, 1⟩, priority := 1, queue := "default", command := "run" })
        []).1 ≤
      (heartbeat (enqueue
        { parallelism := 2, queued_tasks := [], running := [], event_buffer := [] }
        { key := ⟨"wf1", "t1", 0, 1⟩, priority := 1, queue := "default", command := "run" })
        []).1.parallelism ∧
    open_slots (heartbeat (enqueue
        { parallelism := 2, queued_tasks := [], running := [], event_buffer := [] }
        { key := ⟨"wf1", "t1", 0, 1⟩, priority := 1, queue := "default", command := "run" })
        []).1 +
      running_count (heartbeat (enqueue
        { parallelism := 2, queued_tasks := [], running := [], event_buffer := [] }
        { key := ⟨"wf1", "t1", 0, 1⟩, priority := 1, queue := "default", command := "run" })
        []).1 =
      (heartbeat (enqueue
        { parallelism := 2, queued_tasks := [], running := [], event_buffer := [] }
        { key := ⟨"wf1", "t1", 0, 1⟩, priority := 1, queue := "default", command := "run" })
        []).1.parallelism :=
  slot_accounting_invariant _
    (Reachable.heartbeat_step []
      (Reachable.enqueue_step
        { key := ⟨"wf1", "t1", 0, 1⟩, priority := 1, queue := "default", command := "run" }
        (Reachable.init 2)))

/-- Claim C6: one heartbeat tick dispatches at most `availableSlots()`
attempts, for any queue contents and any capacity: `dispatchReady(maxCount)`
pulls at most `maxCount` entries from the Task Queue. -/
theorem dispatch_bounded_by_slots (q : List TaskInstance) (maxCount : Nat)
    (s : ExecutorState) (completed : List (TaskInstanceKey × EventValue)) :
    (dispatchReady q maxCount).1.length ≤ maxCount ∧
    (trigger_tasks (syncOutcomes s completed)
        (open_slots (syncOutcomes s completed))).2.length ≤
      open_slots (syncOutcomes s completed) := by
  constructor
  · exact List.length_take_le maxCount _
  · exact List.length_take_le _ _

/-- Modelled from the spec: the invariant-violation fault class for slot
accounting underflow/overflow (spec section 7) — "a coordination bug, not
an external fault", which "must abort loudly". -/
inductive InvariantViolation
  | slotOverflow
deriving DecidableEq, Repr

/-- Modelled from the spec: Slot Accounting — a configured concurrency
ceiling and the currently consumed capacity (spec 4.1). -/
structure SlotAccounting where
  capacity : Nat
  used : Nat
deriving DecidableEq, Repr

/-- `availableSlots()` of Slot Accounting. -/
def SlotAccounting.availableSlots (st : SlotAccounting) : Nat := st.capacity - st.used

/-- Modelled from the spec: `acquire()` — "must not be called when
`availableSlots()==0`; violating this ... must abort loudly (defensive
check) rather than silently proceed".  The loud abort is the `error`
result; otherwise one slot is consumed. -/
def SlotAccounting.acquire (st : SlotAccounting) :
    Except InvariantViolation SlotAccounting :=
  if st.availableSlots = 0 then Except.error InvariantViolation.slotOverflow
  else Except.ok { st with used := st.used + 1 }

/-- Claim C7: calling `acquire` with `availableSlots() == 0` aborts loudly
with an `InvariantViolation` instead of silently proceeding, and under the
precondition `availableSlots() > 0` the abort branch is unreachable (the
call always succeeds). -/
theorem acquire_defensive_check (st : SlotAccounting) :
    (st.availableSlots = 0 →
      st.acquire = Except.error InvariantViolation.slotOverflow) ∧
    (0 < st.availableSlots →
      st.acquire = Except.ok { capacity := st.capacity, used := st.used + 1 }) := by
  constructor
  · intro h
    unfold SlotAccounting.acquire
    rw [if_pos h]
  · intro h
    unfold SlotAccounting.acquire
    rw [if_neg (Nat.pos_iff_ne_zero.mp h)]

theorem acquire_defensive_check_witness :
    SlotAccounting.acquire { capacity := 3, used := 3 } =
      Except.error InvariantViolation.slotOverflow ∧
    SlotAccounting.acquire { capacity := 3, used := 1 } =
      Except.ok { capacity := 3, used := 2 } :=
  ⟨(acquire_defensive_check { capacity := 3, used := 3 }).1 (by decide),
   (acquire_defensive_check { capacity := 3, used := 1 }).2 (by decide)⟩

/-- A Python `Union[str, List[str]]` argument, as accepted by the sensor's
constructor for its prefix parameter. -/
inductive StrOrStrList
  | str (s : String)
  | strList (l : List String)
deriving DecidableEq, Repr

/-- The sensor's `verify` parameter: `Optional[Union[str, bool]]`. -/
abbrev VerifyArg : Type := Option (Sum String Bool)

/-- The `S3Hook(aws_conn_id=..., verify=...)` object, abstracted to the two
constructor arguments `S3PrefixSensor.get_hook` passes to it. -/
structure S3Hook where
  aws_conn_id : String
  verify : VerifyArg
deriving DecidableEq, Repr

/-- The attribute state of an `S3PrefixSensor`
(`airflow/providers/amazon/aws/sensors/s3_prefix.py`).  The stored prefix
attribute is called `prefixList` here; in the source it is `self.prefix`,
always a list of strings after `__init__`. -/
structure S3PrefixSensor where
  bucket_name : String
  prefixList : List String
  delimiter : String
  aws_conn_id : String
  verify : VerifyArg
  hook : Option S3Hook
deriving DecidableEq, Repr

/-- `S3PrefixSensor.__init__` (s3_prefix.py, lines 57-74):
`self.prefix = [prefix] if isinstance(prefix, str) else prefix`, the other
arguments stored unchanged, and `self.hook = None`. -/
def S3PrefixSensor.init (bucket_name : String) (pfx : StrOrStrList)
    (delimiter : String) (aws_conn_id : String) (verify : VerifyArg) :
    S3PrefixSensor :=
  { bucket_name := bucket_name,
    prefixList :=
      match pfx with
      | StrOrStrList.str s => [s]
      | StrOrStrList.strList l => l,
    delimiter := delimiter,
    aws_conn_id := aws_conn_id,
    verify := verify,
    hook := none }

/-- Claim C8: after `__init__`, the stored prefix attribute is a list of
strings: a string argument is normalized to a one-element list, a list
argument is stored unchanged; this holds before any call to `poke` (the
hook is still unset right after construction). -/
theorem s3_init_normalizes_prefix_argument (b d c : String) (v : VerifyArg)
    (s : String) (l : List String) :
    (S3PrefixSensor.init b (StrOrStrList.str s) d c v).prefixList = [s] ∧
    (S3PrefixSensor.init b (StrOrStrList.strList l) d c v).prefixList = l ∧
    (S3PrefixSensor.init b (StrOrStrList.str s) d c v).hook = none ∧
    (S3PrefixSensor.init b (StrOrStrList.strList l) d c v).hook = none :=
  ⟨rfl, rfl, rfl, rfl⟩

/-- `all(self._check_for_prefix(prefix) for prefix in self.prefix)`: Python
`all` over a generator — evaluates the stored prefixes left to right,
stopping at the first `False`.  Returns the boolean result together with
the list of prefixes for which the hook was actually consulted. -/
def checkEach (chk : String → Bool) : List String → Bool × List String
  | [] => (true, [])
  | p :: rest =>
    if chk p then
      ((checkEach chk rest).1, p :: (checkEach chk rest).2)
    else (false, [p])

/-- `S3PrefixSensor.poke` (s3_prefix.py, lines 76-78).  The hook's
`check_for_prefix(prefix=..., delimiter=..., bucket_name=...)` is abstracted
as the oracle `chk`. -/
def S3PrefixSensor.poke (s : S3PrefixSensor) (chk : String → String → String → Bool) :
    Bool × List String :=
  checkEach (fun p => chk p s.delimiter s.bucket_name) s.prefixList

theorem checkEach_fst (chk : String → Bool) (l : List String) :
    (checkEach chk l).1 = l.all chk := by
  induction l with
  | nil => rfl
  | cons p rest ih =>
    by_cases h : chk p
    · simp [checkEach, h, ih]
    · simp [checkEach, h]

/-- Claim C9: `poke` returns true iff the hook's `check_for_prefix` is true
for every stored prefix; on an empty prefix list it returns true without a
single hook consultation. -/
theorem s3_poke_all_prefixes (s : S3PrefixSensor)
    (chk : String → String → String → Bool) :
    ((s.poke chk).1 = true ↔
      ∀ p ∈ s.prefixList, chk p s.delimiter s.bucket_name = true) ∧
    (s.prefixList = [] → s.poke chk = (true, [])) := by
  constructor
  · rw [S3PrefixSensor.poke, checkEach_fst, List.all_eq_true]
  · intro h
    rw [S3PrefixSensor.poke, h]
    rfl

theorem s3_poke_all_prefixes_witness :
    (((S3PrefixSensor.init "bucket" (StrOrStrList.strList []) "/" "aws_default"
        none).poke (fun _ _ _ => false)).1 = true ↔
      ∀ p ∈ (S3PrefixSensor.init "bucket" (StrOrStrList.strList []) "/" "aws_default"
        none).prefixList,
        (fun (_ _ _ : String) => false) p
          (S3PrefixSensor.init "bucket" (StrOrStrList.strList []) "/" "aws_default"
            none).delimiter
          (S3PrefixSensor.init "bucket" (StrOrStrList.strList []) "/" "aws_default"
            none).bucket_name = true) ∧
    ((S3PrefixSensor.init "bucket" (StrOrStrList.strList []) "/" "aws_default"
        none).prefixList = [] →
      (S3PrefixSensor.init "bucket" (StrOrStrList.strList []) "/" "aws_default"
        none).poke (fun _ _ _ => false) = (true, [])) :=
  s3_poke_all_prefixes
    (S3PrefixSensor.init "bucket" (StrOrStrList.strList []) "/" "aws_default" none)
    (fun _ _ _ => false)

/-- `S3PrefixSensor.get_hook` (s3_prefix.py, lines 80-86): returns the
stored hook when one is set, otherwise constructs
`S3Hook(aws_conn_id=self.aws_conn_id, verify=self.verify)`, stores it and
returns it.  Returns the hook together with the updated sensor state. -/
def S3PrefixSensor.get_hook (s : S3PrefixSensor) : S3Hook × S3PrefixSensor :=
  match s.hook with
  | some h => (h, s)
  | none =>
    ({ aws_conn_id := s.aws_conn_id, verify := s.verify },
     { s with hook := some { aws_conn_id := s.aws_conn_id, verify := s.verify } })

/-- Claim C10: `get_hook` is idempotent — the first call on a fresh sensor
constructs the hook from `aws_conn_id` and `verify` and stores it; any
subsequent call returns that same stored hook without constructing a new
one, so two consecutive calls agree. -/
theorem s3_get_hook_idempotent (s : S3PrefixSensor) :
    ((s.get_hook).2.get_hook).1 = (s.get_hook).1 ∧
    ((s.get_hook).2.get_hook).2 = (s.get_hook).2 ∧
    (s.get_hook).2.hook = some (s.get_hook).1 ∧
    (s.hook = none →
      (s.get_hook).1 = { aws_conn_id := s.aws_conn_id, verify := s.verify }) := by
  cases hh : s.hook with
  | some h =>
    refine ⟨?_, ?_, ?_, ?_⟩ <;>
      simp [S3PrefixSensor.get_hook, hh]
  | none =>
    refine ⟨?_, ?_, ?_, ?_⟩ <;>
      simp [S3PrefixSensor.get_hook, hh]

theorem s3_get_hook_idempotent_witness :
    (((S3PrefixSensor.init "bucket" (StrOrStrList.str "airfl") "/" "aws_default"
        none).get_hook).2.get_hook).1 =
      ((S3PrefixSensor.init "bucket" (StrOrStrList.str "airfl") "/" "aws_default"
        none).get_hook).1 ∧
    (((S3PrefixSensor.init "bucket" (StrOrStrList.str "airfl") "/" "aws_default"
        none).get_hook).2.get_hook).2 =
      ((S3PrefixSensor.init "bucket" (StrOrStrList.str "airfl") "/" "aws_default"
        none).get_hook).2 ∧
    ((S3PrefixSensor.init "bucket" (StrOrStrList.str "airfl") "/" "aws_default"
        none).get_hook).2.hook =
      some ((S3PrefixSensor.init "bucket" (StrOrStrList.str "airfl") "/" "aws_default"
        none).get_hook).1 ∧
    ((S3PrefixSensor.init "bucket" (StrOrStrList.str "airfl") "/" "aws_default"
        none).hook = none →
      ((S3PrefixSensor.init "bucket" (StrOrStrList.str "airfl") "/" "aws_default"
        none).get_hook).1 =
        { aws_conn_id :=
            (S3PrefixSensor.init "bucket" (StrOrStrList.str "airfl") "/" "aws_default"
              none).aws_conn_id,
          verify :=
            (S3PrefixSensor.init "bucket" (StrOrStrList.str "airfl") "/" "aws_default"
              none).verify }) :=
  s3_get_hook_idempotent
    (S3PrefixSensor.init "bucket" (StrOrStrList.str "airfl") "/" "aws_default" none)
